import Mathlib

/-!
Shallow embedding of `lib/galaxy/authnz/custos_authnz.py` (the CustosAuthnz
identity-provider adapter) and proofs about its behaviour.

Modelling conventions:
* Python dicts with possibly-missing keys become structures with `Option`
  fields; a `d['k']` bracket access on a possibly-missing key becomes a
  `match` whose `none` arm produces `Except.error "KeyError: k"`.
* Stateful code (cookies on `trans`, the SQLAlchemy session) becomes explicit
  state passing: every operation returns its result together with the new
  `Trans` / `DB` value.  A raised Python exception becomes `Except.error`;
  states returned alongside an error reflect exactly the mutations performed
  before the raise.
* Network collaborators (the token endpoint, the userinfo endpoint, the
  well-known discovery fetch, `jwt.decode`) are passed in as explicit
  parameters holding their responses: this module never inspects the wire,
  only the parsed results, exactly as in the source.
* `hashlib.sha256(...).hexdigest()` is kept as an explicit function parameter
  `H : String → String`; nothing in the module depends on anything beyond
  `H` being a fixed function applied on both sides of the comparison.
* `datetime.now()` is a `Nat` parameter `now`; `timedelta(seconds=s)` is
  addition of seconds.
-/

namespace CustosAuthnz

/-- `requests`' `verify` argument: either a boolean flag or a CA-bundle path
(`_get_verify_param` may return either). -/
inductive VerifyParam where
  | flag (b : Bool)
  | bundle (path : String)
deriving DecidableEq, Repr

/-- Claims of a decoded identity token, or a parsed userinfo response.  Each
field is a dict key that may be absent (`none`). -/
structure Claims where
  nonce : Option String
  email : Option String
  preferred_username : Option String
  sub : Option String
deriving DecidableEq, Repr

/-- The parsed response of the token endpoint, as read by `callback`
(lines 82-86).  `access_token` and `id_token` are accessed with brackets and
are required for the steps modelled here; `refresh_token`, `expires_in` and
`refresh_expires_in` are optional. -/
structure TokenResponse where
  access_token : String
  id_token : String
  refresh_token : Option String
  expires_in : Option Nat
  refresh_expires_in : Option Nat
deriving DecidableEq, Repr

/-- A persisted `CustosAuthnzToken` record (one per local user and provider). -/
structure TokenRecord where
  user_id : Nat
  external_user_id : String
  provider : String
  access_token : String
  id_token : String
  refresh_token : Option String
  expiration_time : Nat
  refresh_expiration_time : Option Nat
deriving DecidableEq, Repr

/-- A local Galaxy user record, with the fields this module reads. -/
structure UserRec where
  id : Nat
  email : String
  username : String
deriving DecidableEq, Repr

/-- The persistent store visible through `trans.sa_session`: user records and
provider-token records, plus the id the next created user receives. -/
structure DB where
  users : List UserRec
  tokens : List TokenRecord
  nextId : Nat
deriving DecidableEq, Repr

/-- The per-request context `trans`: the two anti-forgery cookies, the
currently authenticated user (if any), and the application-level
configuration read by the reconciliation branch
(`trans.app.config.enable_oidc`, `len(trans.app.config.oidc)`,
`len(trans.app.auth_manager.authenticators)`). -/
structure Trans where
  stateCookie : Option String
  nonceCookie : Option String
  user : Option Nat
  enable_oidc : Bool
  oidc_count : Nat
  authenticators_count : Nat
deriving DecidableEq, Repr

/-- The adapter's `self.config` dict after `__init__`.  Endpoint fields are
`Option` because the dict may lack them (the cilogon branch never sets
`end_session_endpoint`). -/
structure Config where
  provider : String
  verify_ssl : Bool
  url : String
  client_id : String
  client_secret : String
  credential_url : Option String
  iam_client_secret : Option String
  redirect_uri : String
  ca_bundle : Option String
  kc_idp_hint : String
  well_known_oidc_config_uri : Option String
  authorization_endpoint : Option String
  token_endpoint : Option String
  userinfo_endpoint : Option String
  end_session_endpoint : Option String
deriving DecidableEq, Repr

/-- A parsed well-known OIDC discovery document (also the shape of the custos
directory response): the four endpoint keys, each possibly absent. -/
structure WellKnownConfig where
  authorization_endpoint : Option String
  token_endpoint : Option String
  userinfo_endpoint : Option String
  end_session_endpoint : Option String
deriving DecidableEq, Repr

/-- The raw `oidc_backend_config` dict handed to `__init__`.  `url`,
`client_id`, `client_secret` and `redirect_uri` are accessed with brackets
(required); the rest are read with `.get` or an `in` test. -/
structure OidcBackendConfig where
  url : String
  client_id : String
  client_secret : String
  credential_url : Option String
  redirect_uri : String
  ca_bundle : Option String
  idphint : Option String
  well_known_oidc_config_uri : Option String
  realm : Option String
deriving DecidableEq, Repr

/-- `galaxy.util.smart_str` applied to an optional cookie value: a present
cookie is its own byte string, an absent one reads as Python's `str(None)`. -/
def smart_str : Option String → String
  | some s => s
  | none => "None"

/-- `_get_verify_param` (lines 280-286): the CA bundle when both `ca_bundle`
is configured and `verify_ssl` is true, otherwise the `verify_ssl` flag. -/
def get_verify_param (cfg : Config) : VerifyParam :=
  match cfg.ca_bundle with
  | some path => if cfg.verify_ssl then .bundle path else .flag cfg.verify_ssl
  | none => .flag cfg.verify_ssl

/-- The character of a decimal digit. -/
def digitChar (d : Nat) : Char := Char.ofNat (48 + d)

/-- Decimal digits of `n`, most significant first, with structural fuel
(`fuel = n` always suffices because `n / 10 < n` for `n ≥ 10`). -/
def natChars : Nat → Nat → List Char
  | 0, n => [digitChar n]
  | fuel + 1, n =>
    if n < 10 then [digitChar n]
    else natChars fuel (n / 10) ++ [digitChar (n % 10)]

/-- Python's `str(count)` for a natural number: decimal rendering. -/
def natStr (n : Nat) : String := String.mk (natChars n n)

/-- Reading a digit character back. -/
theorem digitChar_toNat : ∀ d, d < 10 → (digitChar d).toNat - 48 = d := by decide

/-- Folding the decimal-value accumulator over `natChars fuel n` recovers `n`
on top of the shifted accumulator, for sufficient fuel. -/
theorem natChars_foldl (fuel : Nat) : ∀ n a, n ≤ fuel →
    (natChars fuel n).foldl (fun acc c => acc * 10 + (c.toNat - 48)) a =
      a * 10 ^ (natChars fuel n).length + n := by
  induction fuel with
  | zero =>
    intro n a hn
    interval_cases n
    simp [natChars, digitChar_toNat 0 (by norm_num)]
  | succ fuel ih =>
    intro n a hn
    by_cases h10 : n < 10
    · simp [natChars, h10, digitChar_toNat n h10]
    · have hdiv : n / 10 ≤ fuel := by
        have : n / 10 < n := Nat.div_lt_self (by omega) (by norm_num)
        omega
      have hmod : n % 10 < 10 := Nat.mod_lt _ (by norm_num)
      simp only [natChars, if_neg h10, List.foldl_append, List.length_append,
        List.foldl_cons, List.foldl_nil, List.length_cons, List.length_nil]
      rw [ih (n / 10) a hdiv, digitChar_toNat (n % 10) hmod]
      have : a * 10 ^ ((natChars fuel (n / 10)).length + (0 + 1)) =
          a * 10 ^ (natChars fuel (n / 10)).length * 10 := by ring
      rw [this]
      have := Nat.div_add_mod n 10
      ring_nf
      omega

/-- The decimal value of `natStr n` is `n`. -/
theorem natStr_val (n : Nat) :
    (natStr n).data.foldl (fun acc c => acc * 10 + (c.toNat - 48)) 0 = n := by
  have := natChars_foldl n n 0 (le_refl n)
  simpa [natStr] using this

/-- Python decimal rendering of distinct numbers is distinct. -/
theorem natStr_injective : Function.Injective natStr := by
  intro n m h
  have hn := natStr_val n
  have hm := natStr_val m
  rw [h] at hn
  omega

/-- Appending to a fixed string is injective (used for the suffix-probing
candidates `temp ++ natStr n`). -/
theorem string_append_left_cancel (temp : String) (a b : String)
    (h : temp ++ a = temp ++ b) : a = b := by
  cases a with
  | mk da =>
    cases b with
    | mk db =>
      cases temp with
      | mk dt =>
        have hdata : dt ++ da = dt ++ db := congrArg String.data h
        exact congrArg String.mk (List.append_cancel_left hdata)

/-- The `filter_by(username=...).first()` truthiness test of
`_generate_username` (lines 291-295): is some user already named `u`? -/
def username_taken (db : DB) (u : String) : Bool :=
  db.users.any (fun usr => usr.username == u)

/-- The while loop of `_generate_username` (lines 294-296): starting at
`count`, probe `temp ++ str(count)` and increment while the candidate is
taken.  The loop is given structural fuel; `db.users.length + 1` steps always
suffice (pigeonhole, proved below), so the `none` case is unreachable at the
fuel `generate_username` supplies. -/
def probeFrom (db : DB) (temp : String) : Nat → Nat → Option String
  | 0, _ => none
  | fuel + 1, count =>
    if username_taken db (temp ++ natStr count) then
      probeFrom db temp fuel (count + 1)
    else
      some (temp ++ natStr count)

/-- Python `email.split('@')[0]`: the characters before the first `@`
(the whole string when no `@` occurs). -/
def email_local_part (email : String) : String :=
  String.mk (email.data.takeWhile (fun c => c ≠ '@'))

/-- `_generate_username` (lines 288-299): the username portion of the email
if unused, else the first unused candidate `temp ++ str(count)` for
`count = 0, 1, 2, ...`. -/
def generate_username (db : DB) (email : String) : Option String :=
  let temp_username := email_local_part email
  if username_taken db temp_username then
    probeFrom db temp_username (db.users.length + 1) 0
  else
    some temp_username

theorem probeFrom_sound (db : DB) (temp : String) :
    ∀ fuel count u, probeFrom db temp fuel count = some u →
      ∃ k, k < fuel ∧ u = temp ++ natStr (count + k) ∧
        username_taken db u = false ∧
        ∀ j, j < k → username_taken db (temp ++ natStr (count + j)) = true := by
  intro fuel
  induction fuel with
  | zero => intro count u h; simp [probeFrom] at h
  | succ fuel ih =>
    intro count u h
    simp only [probeFrom] at h
    by_cases htaken : username_taken db (temp ++ natStr count)
    · rw [if_pos htaken] at h
      obtain ⟨k, hk, hu, hfree, hbefore⟩ := ih (count + 1) u h
      refine ⟨k + 1, by omega, by rw [hu]; ring_nf, hfree, ?_⟩
      intro j hj
      match j with
      | 0 => simpa using htaken
      | j + 1 =>
        have := hbefore j (by omega)
        have harg : count + 1 + j = count + (j + 1) := by ring
        rwa [harg] at this
    · rw [if_neg htaken] at h
      obtain rfl : temp ++ natStr count = u := Option.some.inj h
      exact ⟨0, by omega, by simp, by simpa using htaken, by omega⟩

theorem probeFrom_none (db : DB) (temp : String) :
    ∀ fuel count, probeFrom db temp fuel count = none →
      ∀ k, k < fuel → username_taken db (temp ++ natStr (count + k)) = true := by
  intro fuel
  induction fuel with
  | zero => intro count _ k hk; omega
  | succ fuel ih =>
    intro count h k hk
    simp only [probeFrom] at h
    by_cases htaken : username_taken db (temp ++ natStr count)
    · rw [if_pos htaken] at h
      match k with
      | 0 => simpa using htaken
      | k + 1 =>
        have := ih (count + 1) h k (by omega)
        have harg : count + 1 + k = count + (k + 1) := by ring
        rwa [harg] at this
    · rw [if_neg htaken] at h
      exact absurd h (by simp)

/-- A taken username is one of the persisted usernames. -/
theorem username_taken_mem (db : DB) (u : String)
    (h : username_taken db u = true) : u ∈ db.users.map (fun usr => usr.username) := by
  simp only [username_taken, List.any_eq_true, beq_iff_eq] at h
  obtain ⟨usr, hin, heq⟩ := h
  exact List.mem_map.mpr ⟨usr, hin, heq⟩

/-- Pigeonhole: the `db.users.length + 1` candidates `temp ++ str(0)`, ...,
`temp ++ str(db.users.length)` cannot all be taken. -/
theorem candidates_not_all_taken (db : DB) (temp : String) :
    ¬ (∀ k, k < db.users.length + 1 →
        username_taken db (temp ++ natStr k) = true) := by
  intro hall
  set N := db.users.length with hN
  set f : Fin (N + 1) → String := fun i => temp ++ natStr i.1 with hf
  have hinj : Function.Injective f := by
    intro i j h
    have := natStr_injective (string_append_left_cancel temp _ _ h)
    exact Fin.ext this
  have hsub : (Finset.univ : Finset (Fin (N + 1))).image f ⊆
      (db.users.map (fun usr => usr.username)).toFinset := by
    intro s hs
    obtain ⟨i, _, rfl⟩ := Finset.mem_image.mp hs
    exact List.mem_toFinset.mpr (username_taken_mem db _ (hall i.1 i.2))
  have hcard1 : ((Finset.univ : Finset (Fin (N + 1))).image f).card = N + 1 := by
    rw [Finset.card_image_of_injective _ hinj, Finset.card_univ, Fintype.card_fin]
  have hcard2 := Finset.card_le_card hsub
  have hcard3 := (db.users.map (fun usr => usr.username)).toFinset_card_le
  simp only [List.length_map] at hcard3
  omega

/-- The probe loop of `_generate_username` always terminates with a result at
the fuel used by `generate_username`. -/
theorem probeFrom_total (db : DB) (temp : String) :
    probeFrom db temp (db.users.length + 1) 0 ≠ none := by
  intro h
  exact candidates_not_all_taken db temp (fun k hk => by
    simpa using probeFrom_none db temp _ 0 h k hk)

/-- Python's `str.lower()` restricted to what `provider.lower()` needs. -/
def strLower (s : String) : String := String.mk (s.data.map Char.toLower)

/-- A required key of a parsed JSON document: absent means `KeyError`. -/
def requireField (name : String) : Option String → Except String String
  | some s => .ok s
  | none => .error ("KeyError: " ++ name)

/-- Extract the four endpoint URLs from a discovery document or directory
response, as the bracket accesses of lines 46-49 / 237-240 / 257-260 do. -/
def endpoints_from_doc (doc : WellKnownConfig) :
    Except String (String × String × String × String) := do
  let a ← requireField "authorization_endpoint" doc.authorization_endpoint
  let t ← requireField "token_endpoint" doc.token_endpoint
  let u ← requireField "userinfo_endpoint" doc.userinfo_endpoint
  let e ← requireField "end_session_endpoint" doc.end_session_endpoint
  pure (a, t, u, e)

/-- `base_url if base_url[-1] != "/" else base_url[:-1]` (line 267): Python
raises `IndexError` on the empty string. -/
def trim_trailing_slash (url : String) : Except String String :=
  match url.data.getLast? with
  | none => .error "IndexError: string index out of range"
  | some c => .ok (if c = '/' then String.mk url.data.dropLast else url)

/-- `_get_well_known_uri_for_provider_and_realm` (lines 262-270): only the
`custos` provider name is recognised. -/
def well_known_uri_for_provider_and_realm (provider url realm : String) :
    Except String String :=
  if provider = "custos" then do
    let base ← trim_trailing_slash url
    pure (base ++ "/realms/" ++ realm ++ "/.well-known/openid-configuration")
  else
    .error ("Unknown Custos provider name: " ++ provider)

/-- What a resolution branch of `__init__` (lines 41-56) leaves in the config:
every branch sets the first three endpoints, only the cilogon branch
(`_load_config_for_cilogon`, lines 224-228) leaves `end_session_endpoint`
unset. -/
structure ResolvedEndpoints where
  well_known_uri : Option String
  authorization_endpoint : String
  token_endpoint : String
  userinfo_endpoint : String
  end_session_endpoint : Option String
deriving DecidableEq, Repr

/-- The endpoint-resolution dispatch of `__init__` (lines 41-56).  The
discovery fetches are collaborators: `wellKnownFetch uri` is the parsed
response of `_load_well_known_oidc_config uri`, `custosDirectory` the parsed
response of the directory fetch in `_load_config_for_custos`.  Note the
branch tests use the raw `provider` argument while the realm path hands the
lowered name to `_get_well_known_uri_for_provider_and_realm`. -/
def resolve_endpoints (provider : String) (b : OidcBackendConfig)
    (wellKnownFetch : String → WellKnownConfig)
    (custosDirectory : WellKnownConfig) : Except String ResolvedEndpoints :=
  match b.well_known_oidc_config_uri with
  | some uri => do
    let (a, t, u, e) ← endpoints_from_doc (wellKnownFetch uri)
    pure ⟨some uri, a, t, u, some e⟩
  | none =>
    if provider = "cilogon" then
      pure ⟨none, "https://cilogon.org/authorize", "https://cilogon.org/oauth2/token",
        "https://cilogon.org/oauth2/userinfo", none⟩
    else if provider = "custos" then do
      let (a, t, u, e) ← endpoints_from_doc custosDirectory
      pure ⟨none, a, t, u, some e⟩
    else
      match b.realm with
      | none => .error "KeyError: realm"
      | some realm => do
        let uri ← well_known_uri_for_provider_and_realm (strLower provider) b.url realm
        let (a, t, u, e) ← endpoints_from_doc (wellKnownFetch uri)
        pure ⟨some uri, a, t, u, some e⟩

/-- `__init__` (lines 26-56).  `credResponse` is the `iam_client_secret`
field of the parsed credential-endpoint response (absent key means
`KeyError`); the credential fetch happens only when `credential_url` is
present and truthy, before endpoint resolution, matching the source order. -/
def custosAuthnzInit (provider : String) (verify_ssl : Bool)
    (b : OidcBackendConfig) (wellKnownFetch : String → WellKnownConfig)
    (custosDirectory : WellKnownConfig) (credResponse : Option String) :
    Except String Config := do
  let cred : Option String × Option String ←
    match b.credential_url with
    | some cu =>
      if cu = "" then pure (none, none)
      else
        match credResponse with
        | some s => pure (some cu, some s)
        | none => Except.error "KeyError: iam_client_secret"
    | none => pure (none, none)
  let eps ← resolve_endpoints provider b wellKnownFetch custosDirectory
  pure { provider := strLower provider
         verify_ssl := verify_ssl
         url := b.url
         client_id := b.client_id
         client_secret := b.client_secret
         credential_url := cred.1
         iam_client_secret := cred.2
         redirect_uri := b.redirect_uri
         ca_bundle := b.ca_bundle
         kc_idp_hint := b.idphint.getD "cilogon"
         well_known_oidc_config_uri := eps.well_known_uri
         authorization_endpoint := some eps.authorization_endpoint
         token_endpoint := some eps.token_endpoint
         userinfo_endpoint := some eps.userinfo_endpoint
         end_session_endpoint := eps.end_session_endpoint }

/-- An outbound HTTP GET as this module issues it: target URL, the
`client_id:client_secret` string placed in a Basic Authorization header when
one is sent, and the TLS `verify` argument. -/
structure HttpRequest where
  url : String
  basic_credential : Option String
  verify : VerifyParam
deriving DecidableEq, Repr

/-- The directory fetch of `_load_config_for_custos` (lines 230-240): GET on
`config['url']` with a Basic header from the primary credentials and a
literal `verify=False`. -/
def custos_directory_request (cfg : Config) : HttpRequest :=
  { url := cfg.url
    basic_credential := some (cfg.client_id ++ ":" ++ cfg.client_secret)
    verify := .flag false }

/-- The secondary-credential fetch of `_get_custos_credentials`
(lines 242-248): GET on `config['credential_url']` with a Basic header from
the primary credentials and a literal `verify=False`. -/
def custos_credentials_request (cfg : Config) : Except String HttpRequest :=
  match cfg.credential_url with
  | none => .error "KeyError: credential_url"
  | some cu =>
    .ok { url := cu
          basic_credential := some (cfg.client_id ++ ":" ++ cfg.client_secret)
          verify := .flag false }

/-- The discovery fetch of `_load_well_known_oidc_config` (lines 272-278):
plain GET passing the configured verification setting. -/
def well_known_request (cfg : Config) (uri : String) : HttpRequest :=
  { url := uri, basic_credential := none, verify := get_verify_param cfg }

/-- The userinfo fetch of `_get_userinfo` (lines 204-207): GET on
`config['userinfo_endpoint']` through the OAuth2 session (bearer token),
passing the configured verification setting. -/
def userinfo_request (cfg : Config) : Except String HttpRequest :=
  match cfg.userinfo_endpoint with
  | none => .error "KeyError: userinfo_endpoint"
  | some ep =>
    .ok { url := ep, basic_credential := none, verify := get_verify_param cfg }

/-- The `client_secret` chosen by `_fetch_token` (lines 190-194): the
secondary Keycloak/iam secret when the config holds a truthy one, otherwise
the primary secret (Python truthiness: an empty stored secret falls back to
the primary). -/
def effective_client_secret (cfg : Config) : String :=
  match cfg.iam_client_secret with
  | some s => if s ≠ "" then s else cfg.client_secret
  | none => cfg.client_secret

/-- The authorization-code exchange issued by `_fetch_token` (lines 189-202):
the token endpoint, the `client_secret` argument handed to
`OAuth2Session.fetch_token`, the `client_id:primary_secret` string the code
additionally places in an explicit Authorization header, and the verify
setting. -/
structure FetchTokenRequest where
  token_endpoint : String
  client_secret_param : String
  header_credential : String
  verify : VerifyParam
deriving DecidableEq, Repr

/-- `_fetch_token`'s request construction (lines 189-202). -/
def fetch_token_request (cfg : Config) : Except String FetchTokenRequest :=
  match cfg.token_endpoint with
  | none => .error "KeyError: token_endpoint"
  | some te =>
    .ok { token_endpoint := te
          client_secret_param := effective_client_secret cfg
          header_credential := cfg.client_id ++ ":" ++ cfg.client_secret
          verify := get_verify_param cfg }

/-- Collaborator contract of `requests_oauthlib`/`requests`: `fetch_token`
turns its `client_secret` argument into an `HTTPBasicAuth(client_id,
client_secret)` object, and `requests` applies the auth object after merging
the caller-supplied headers, so the Authorization header actually sent on the
wire is the Basic credential `client_id:client_secret_param`, overriding the
`header_credential` the source also passes. -/
def sent_basic_credential (cfg : Config) (req : FetchTokenRequest) : String :=
  cfg.client_id ++ ":" ++ req.client_secret_param

/-- The value `authenticate` hands back to the web layer together with the
cookie mutations it performed on `trans` (lines 58-72): the source returns a
single value, the authorization URL. -/
structure AuthenticateOut where
  result : Except String String
  tr : Trans
deriving Repr

/-- `authenticate` (lines 58-72).  `authUrlFn base params state` stands for
`oauth2_session.authorization_url(base, **params)` of `requests_oauthlib`
with the session-generated `state`; `state` and `nonce` are the two random
tokens (`generate_nonce()` and the session state), passed as parameters
because randomness is a collaborator.  The function stores both raw tokens
into the state/nonce cookies itself and returns only the URL. -/
def authenticate (H : String → String)
    (authUrlFn : String → List (String × String) → String → String)
    (cfg : Config) (tr : Trans) (idphint : Option String)
    (state nonce : String) : AuthenticateOut :=
  match cfg.authorization_endpoint with
  | none => { result := .error "KeyError: authorization_endpoint", tr := tr }
  | some ep =>
    let base := ep ++ "/?kc_idp_hint=oidc&response_type=code&client_id=" ++
      cfg.client_id ++ "&redirect_uri=" ++ cfg.redirect_uri
    let nonce_hash := H nonce
    let extra_params := [("nonce", nonce_hash)] ++
      (match idphint with | some h => [("idphint", h)] | none => []) ++
      [("kc_idp_hint", cfg.kc_idp_hint)]
    let authorization_url := authUrlFn base extra_params state
    { result := .ok authorization_url
      tr := { tr with stateCookie := some state, nonceCookie := some nonce } }

/-- A representative instance of `authorization_url` used only in concrete
counterexamples: base URL with the parameters and the state appended. -/
def modelAuthUrl (base : String) (params : List (String × String))
    (state : String) : String :=
  base ++ params.foldl (fun acc p => acc ++ "&" ++ p.1 ++ "=" ++ p.2) "" ++
    "&state=" ++ state

/-- `_validate_nonce` (lines 216-222): read the nonce cookie, delete it
unconditionally, hash it and compare with the `nonce` claim; a mismatch
raises. -/
def validate_nonce (H : String → String) (tr : Trans) (nonce_hash : String) :
    Except String Unit × Trans :=
  let nonce_cookie := tr.nonceCookie
  let tr1 : Trans := { tr with nonceCookie := none }
  let nonce_cookie_hash := H (smart_str nonce_cookie)
  (if nonce_hash ≠ nonce_cookie_hash then .error "Nonce mismatch!" else .ok (), tr1)

/-- Lines 96-99 of `callback`: use the decoded token claims as the userinfo
record when they hold a truthy `email`, call the userinfo endpoint when the
key is present but falsy, and raise `KeyError` when the key is absent.  The
boolean records whether the userinfo endpoint was called. -/
def get_userinfo_step (id_token_decoded : Claims) (userinfoResponse : Claims) :
    Except String (Claims × Bool) :=
  match id_token_decoded.email with
  | none => .error "KeyError: email"
  | some e =>
    if e ≠ "" then .ok (id_token_decoded, false) else .ok (userinfoResponse, true)

/-- SQLAlchemy's `one_or_none`: `none` for no row, the row when unique, an
error for several rows. -/
def one_or_none {α : Type} : List α → Except String (Option α)
  | [] => .ok none
  | [x] => .ok (some x)
  | _ => .error "MultipleResultsFound"

/-- `_get_custos_authnz_token` (lines 209-211): query by
`(external_user_id, provider)` with `one_or_none`. -/
def get_custos_authnz_token (db : DB) (user_id provider : String) :
    Except String (Option TokenRecord) :=
  one_or_none (db.tokens.filter
    (fun t => t.external_user_id == user_id && t.provider == provider))

/-- The token record built at lines 132-139 for a freshly bound user. -/
def new_token_record (cfg : Config) (uid : Nat) (external_user_id : String)
    (token : TokenResponse) (now : Nat) : TokenRecord :=
  { user_id := uid
    external_user_id := external_user_id
    provider := cfg.provider
    access_token := token.access_token
    id_token := token.id_token
    refresh_token := token.refresh_token
    expiration_time := now + token.expires_in.getD 3600
    refresh_expiration_time := token.refresh_expires_in.map (fun s => now + s) }

/-- The in-place update of lines 141-145 on an existing token record. -/
def update_token_record (r : TokenRecord) (token : TokenResponse) (now : Nat) :
    TokenRecord :=
  { r with
    access_token := token.access_token
    id_token := token.id_token
    refresh_token := token.refresh_token
    expiration_time := now + token.expires_in.getD 3600
    refresh_expiration_time := token.refresh_expires_in.map (fun s => now + s) }

/-- What `callback` leaves behind: the Python return value
`(True, "", (login_redirect_url, user))` becomes `.ok (url, user id)` and a
raised exception becomes `.error`; plus the final `trans` and session state
and whether the userinfo endpoint was contacted. -/
structure CallbackOut where
  result : Except String (String × Nat)
  tr : Trans
  db : DB
  userinfoFetched : Bool
deriving Repr

/-- `callback` (lines 74-148) from the point where the token response is in
hand.  The state-cookie read and `fetch_token` state verification happen
inside the `requests_oauthlib` collaborator; `token` is its successful
response, `decode` is `jwt.decode(..., verify=False)`, `userinfoResp` the
parsed userinfo-endpoint response if it were called. -/
def callback (H : String → String) (cfg : Config) (tr : Trans) (db : DB)
    (now : Nat) (token : TokenResponse) (decode : String → Claims)
    (userinfoResp : Claims) (login_redirect_url : String) : CallbackOut :=
  let id_token_decoded := decode token.id_token
  match id_token_decoded.nonce with
  | none => ⟨.error "KeyError: nonce", tr, db, false⟩
  | some nonce_hash =>
    match validate_nonce H tr nonce_hash with
    | (.error e, tr1) => ⟨.error e, tr1, db, false⟩
    | (.ok _, tr1) =>
      match get_userinfo_step id_token_decoded userinfoResp with
      | .error e => ⟨.error e, tr1, db, false⟩
      | .ok (userinfo, fetched) =>
        match userinfo.email with
        | none => ⟨.error "KeyError: email", tr1, db, fetched⟩
        | some email =>
          let username := match userinfo.preferred_username with
            | some u => u
            | none => (generate_username db email).getD ""
          match userinfo.sub with
          | none => ⟨.error "KeyError: sub", tr1, db, fetched⟩
          | some user_id =>
            match get_custos_authnz_token db user_id cfg.provider with
            | .error e => ⟨.error e, tr1, db, fetched⟩
            | .ok (some rec0) =>
              let tokens1 := db.tokens.map (fun t =>
                if t.external_user_id == user_id && t.provider == cfg.provider then
                  update_token_record t token now
                else t)
              ⟨.ok (login_redirect_url, rec0.user_id), tr1,
                { db with tokens := tokens1 }, fetched⟩
            | .ok none =>
              match tr.user with
              | some uid =>
                ⟨.ok (login_redirect_url, uid), tr1,
                  { db with tokens :=
                      db.tokens ++ [new_token_record cfg uid user_id token now] },
                  fetched⟩
              | none =>
                match db.users.find? (fun u => u.email == email) with
                | some existing_user =>
                  if tr.enable_oidc && tr.oidc_count == 1 &&
                      tr.authenticators_count == 0 then
                    ⟨.ok (login_redirect_url, existing_user.id), tr1,
                      { db with tokens := db.tokens ++
                          [new_token_record cfg existing_user.id user_id token now] },
                      fetched⟩
                  else
                    ⟨.error "There already exists a user this email.  To associate this external login, you must first be logged in as that existing account.",
                      tr1, db, fetched⟩
                | none =>
                  let new_user : UserRec :=
                    { id := db.nextId, email := email, username := username }
                  ⟨.ok (login_redirect_url, new_user.id), tr1,
                    { db with
                      users := db.users ++ [new_user]
                      nextId := db.nextId + 1
                      tokens := db.tokens ++
                        [new_token_record cfg new_user.id user_id token now] },
                    fetched⟩

/-- What `disconnect` (lines 150-163) returns (the Python
`(success, message, redirect)` tuple) together with the resulting session
state; the function is total because the source catches every exception and
reports it as a failure tuple. -/
structure DisconnectOut where
  success : Bool
  message : String
  redirect : Option String
  db : DB
deriving Repr

/-- `disconnect` (lines 150-163).  Token records of the current user for the
configured provider are counted: exactly one is deleted and reported as
success; zero or several raise, and the raise (like any other exception,
including a missing `trans.user`) is caught and turned into a failure tuple
with no session mutation. -/
def disconnect (cfg : Config) (provider : String) (tr : Trans) (db : DB)
    (disconnect_redirect_url : Option String) : DisconnectOut :=
  match tr.user with
  | none =>
    { success := false
      message := "Failed to disconnect provider " ++ provider ++
        ": NoneType object has no attribute custos_auth"
      redirect := none
      db := db }
  | some uid =>
    let provider_tokens := db.tokens.filter
      (fun t => t.user_id == uid && t.provider == cfg.provider)
    if provider_tokens.length = 0 then
      { success := false
        message := "Failed to disconnect provider " ++ provider ++
          ": User is not associated with provider " ++ cfg.provider
        redirect := none
        db := db }
    else if provider_tokens.length > 1 then
      { success := false
        message := "Failed to disconnect provider " ++ provider ++
          ": User is associated more than once with provider " ++ cfg.provider
        redirect := none
        db := db }
    else
      { success := true
        message := ""
        redirect := disconnect_redirect_url
        db := { db with tokens := (db.tokens.eraseP
            (fun t => t.user_id == uid && t.provider == cfg.provider)) } }

/-! ## Claim theorems -/

/-- C7: username synthesis from an email is deterministic: the portion of the
email before `@` is returned when unused; otherwise the suffixed candidates
`name0`, `name1`, `name2`, ... are probed in increasing integer order and the
first unused one is returned. -/
theorem c7_username_synthesis (db : DB) (email : String) :
    (username_taken db (email_local_part email) = false →
      generate_username db email = some (email_local_part email)) ∧
    (username_taken db (email_local_part email) = true →
      ∃ n, generate_username db email =
          some (email_local_part email ++ natStr n) ∧
        username_taken db (email_local_part email ++ natStr n) = false ∧
        ∀ m, m < n →
          username_taken db (email_local_part email ++ natStr m) = true) := by
  constructor
  · intro h
    simp [generate_username, h]
  · intro h
    have htot := probeFrom_total db (email_local_part email)
    cases hres : probeFrom db (email_local_part email) (db.users.length + 1) 0 with
    | none => exact absurd hres htot
    | some u =>
      obtain ⟨k, _, hu, hfree, hbefore⟩ :=
        probeFrom_sound db (email_local_part email) _ _ _ hres
      refine ⟨k, ?_, ?_, ?_⟩
      · rw [generate_username]
        simp only [h, if_true]
        rw [hres, hu]
        simp
      · rw [← Nat.zero_add k, ← hu]
        exact hfree
      · intro m hm
        have := hbefore m hm
        simpa using this

/-- Fixture: three users named alice, alice0, alice1. -/
def usersAliceDb : DB :=
  { users := [⟨1, "a@x", "alice"⟩, ⟨2, "b@x", "alice0"⟩, ⟨3, "c@x", "alice1"⟩]
    tokens := []
    nextId := 4 }

/-- Witness for C7 at the spec's own example: existing usernames
alice, alice0, alice1 and email alice@example.com give alice2. -/
theorem c7_username_synthesis_witness :
    username_taken usersAliceDb (email_local_part "alice@example.com") = true ∧
    (∃ n, generate_username usersAliceDb "alice@example.com" =
        some (email_local_part "alice@example.com" ++ natStr n) ∧
      username_taken usersAliceDb
        (email_local_part "alice@example.com" ++ natStr n) = false ∧
      ∀ m, m < n → username_taken usersAliceDb
        (email_local_part "alice@example.com" ++ natStr m) = true) ∧
    generate_username usersAliceDb "alice@example.com" = some "alice2" :=
  ⟨by decide,
   (c7_username_synthesis usersAliceDb "alice@example.com").2 (by decide),
   by decide⟩

/-- C10: the custos directory fetch and the secondary-credential fetch use a
literal `verify=False` for every configuration, while the discovery fetch,
the userinfo fetch and the token exchange pass the configured
`_get_verify_param` value. -/
theorem c10_verify_disabled_on_custos_fetches (cfg : Config) (uri : String) :
    (custos_directory_request cfg).verify = VerifyParam.flag false ∧
    (∀ r, custos_credentials_request cfg = .ok r →
      r.verify = VerifyParam.flag false) ∧
    (well_known_request cfg uri).verify = get_verify_param cfg ∧
    (∀ r, userinfo_request cfg = .ok r → r.verify = get_verify_param cfg) ∧
    (∀ r, fetch_token_request cfg = .ok r → r.verify = get_verify_param cfg) := by
  refine ⟨rfl, ?_, rfl, ?_, ?_⟩
  · intro r h
    cases hc : cfg.credential_url with
    | none => rw [custos_credentials_request, hc] at h; cases h
    | some cu =>
      rw [custos_credentials_request, hc] at h
      cases h
      rfl
  · intro r h
    cases hc : cfg.userinfo_endpoint with
    | none => rw [userinfo_request, hc] at h; cases h
    | some ep =>
      rw [userinfo_request, hc] at h
      cases h
      rfl
  · intro r h
    cases hc : cfg.token_endpoint with
    | none => rw [fetch_token_request, hc] at h; cases h
    | some te =>
      rw [fetch_token_request, hc] at h
      cases h
      rfl

/-- Fixture: a configuration that asks for TLS verification with a CA bundle,
with every endpoint present. -/
def verifyCfg : Config :=
  { provider := "custos"
    verify_ssl := true
    url := "https://directory.example.org"
    client_id := "cid"
    client_secret := "sec"
    credential_url := some "https://cred.example.org"
    iam_client_secret := some "iamsec"
    redirect_uri := "https://galaxy.example.org/callback"
    ca_bundle := some "/etc/ssl/ca.pem"
    kc_idp_hint := "cilogon"
    well_known_oidc_config_uri := none
    authorization_endpoint := some "https://auth.example.org"
    token_endpoint := some "https://token.example.org"
    userinfo_endpoint := some "https://userinfo.example.org"
    end_session_endpoint := some "https://logout.example.org" }

/-- Witness for C10: on a configuration demanding verification with a CA
bundle, the two custos fetches still carry `verify=False` while the userinfo
fetch and token exchange carry the CA bundle. -/
theorem c10_verify_disabled_on_custos_fetches_witness :
    (custos_directory_request verifyCfg).verify = VerifyParam.flag false ∧
    (Except.toOption (custos_credentials_request verifyCfg)).map
      HttpRequest.verify = some (VerifyParam.flag false) ∧
    (Except.toOption (userinfo_request verifyCfg)).map HttpRequest.verify =
      some (VerifyParam.bundle "/etc/ssl/ca.pem") ∧
    (Except.toOption (fetch_token_request verifyCfg)).map
      FetchTokenRequest.verify = some (VerifyParam.bundle "/etc/ssl/ca.pem") := by
  have h := c10_verify_disabled_on_custos_fetches verifyCfg "https://w"
  have h1 := h.2.1 ⟨"https://cred.example.org", some "cid:sec",
    VerifyParam.flag false⟩ rfl
  have h2 := h.2.2.2.1 ⟨"https://userinfo.example.org", none,
    VerifyParam.bundle "/etc/ssl/ca.pem"⟩ rfl
  have h3 := h.2.2.2.2 ⟨"https://token.example.org", "iamsec", "cid:sec",
    VerifyParam.bundle "/etc/ssl/ca.pem"⟩ rfl
  exact ⟨h.1, by decide, by decide, by decide⟩

/-- C5: the authorization-code exchange authenticates with Basic
`client_id:effective_secret` where the effective secret is the secondary
(iam) client secret when a (non-empty) one was resolved at construction and
the primary client secret otherwise. -/
theorem c5_token_exchange_credential (cfg : Config) (req : FetchTokenRequest)
    (h : fetch_token_request cfg = .ok req) :
    (∀ s, cfg.iam_client_secret = some s → s ≠ "" →
      sent_basic_credential cfg req = cfg.client_id ++ ":" ++ s) ∧
    (cfg.iam_client_secret = none →
      sent_basic_credential cfg req = cfg.client_id ++ ":" ++ cfg.client_secret) := by
  have hreq : req.client_secret_param = effective_client_secret cfg := by
    cases hc : cfg.token_endpoint with
    | none => rw [fetch_token_request, hc] at h; cases h
    | some te => rw [fetch_token_request, hc] at h; cases h; rfl
  constructor
  · intro s hs hne
    simp [sent_basic_credential, hreq, effective_client_secret, hs, hne]
  · intro hnone
    simp [sent_basic_credential, hreq, effective_client_secret, hnone]

/-- Fixture: the same configuration as `verifyCfg` but with no secondary
credential resolved. -/
def primaryOnlyCfg : Config :=
  { verifyCfg with credential_url := none, iam_client_secret := none }

/-- Witness for C5: with a resolved secondary secret the exchange credential
is `cid:iamsec`; without one it is `cid:sec`. -/
theorem c5_token_exchange_credential_witness :
    sent_basic_credential verifyCfg ⟨"https://token.example.org", "iamsec",
      "cid:sec", VerifyParam.bundle "/etc/ssl/ca.pem"⟩ = "cid:iamsec" ∧
    sent_basic_credential primaryOnlyCfg ⟨"https://token.example.org", "sec",
      "cid:sec", VerifyParam.bundle "/etc/ssl/ca.pem"⟩ = "cid:sec" := by
  constructor
  · have h := (c5_token_exchange_credential verifyCfg
      ⟨"https://token.example.org", "iamsec", "cid:sec",
        VerifyParam.bundle "/etc/ssl/ca.pem"⟩ rfl).1 "iamsec" rfl (by decide)
    simpa using h
  · have h := (c5_token_exchange_credential primaryOnlyCfg
      ⟨"https://token.example.org", "sec", "cid:sec",
        VerifyParam.bundle "/etc/ssl/ca.pem"⟩ rfl).2 rfl
    simpa using h

/-- C6 (amended): the decoded token claims are used as the userinfo record
when they hold a non-empty email; the userinfo endpoint is called when the
email claim is present but empty; an absent email claim raises a `KeyError`
(the endpoint is not called and the callback fails). -/
theorem c6_userinfo_source (claims uiResp : Claims) :
    (∀ e, claims.email = some e → e ≠ "" →
      get_userinfo_step claims uiResp = .ok (claims, false)) ∧
    (claims.email = some "" → get_userinfo_step claims uiResp = .ok (uiResp, true)) ∧
    (claims.email = none →
      get_userinfo_step claims uiResp = .error "KeyError: email") := by
  refine ⟨?_, ?_, ?_⟩
  · intro e he hne
    simp [get_userinfo_step, he, hne]
  · intro he
    simp [get_userinfo_step, he]
  · intro he
    simp [get_userinfo_step, he]

/-- Witness for C6: concrete claims with a non-empty email are themselves the
userinfo record; claims with an empty email defer to the endpoint response. -/
theorem c6_userinfo_source_witness :
    get_userinfo_step ⟨some "h", some "a@b.org", none, some "s"⟩
        ⟨none, some "x@y.org", none, some "s"⟩ =
      .ok (⟨some "h", some "a@b.org", none, some "s"⟩, false) ∧
    get_userinfo_step ⟨some "h", some "", none, some "s"⟩
        ⟨none, some "x@y.org", none, some "s"⟩ =
      .ok (⟨none, some "x@y.org", none, some "s"⟩, true) :=
  ⟨(c6_userinfo_source ⟨some "h", some "a@b.org", none, some "s"⟩
      ⟨none, some "x@y.org", none, some "s"⟩).1 "a@b.org" rfl (by decide),
   (c6_userinfo_source ⟨some "h", some "", none, some "s"⟩
      ⟨none, some "x@y.org", none, some "s"⟩).2.1 rfl⟩

/-- `String.append` concatenates the character lists. -/
theorem data_append (s t : String) : (s ++ t).data = s.data ++ t.data := by
  cases s
  cases t
  rfl

/-- A three-part concatenation with a non-empty head is non-empty. -/
theorem msg3_ne_empty (pre p mid : String) (hpre : pre.data ≠ []) :
    pre ++ p ++ mid ≠ "" := by
  intro he
  apply hpre
  have hd := congrArg String.data he
  rw [data_append, data_append] at hd
  have h1 : pre.data ++ p.data = [] := (List.append_eq_nil.mp hd).1
  exact (List.append_eq_nil.mp h1).1

/-- A four-part concatenation with a non-empty head is non-empty. -/
theorem msg4_ne_empty (pre p mid q : String) (hpre : pre.data ≠ []) :
    pre ++ p ++ mid ++ q ≠ "" := by
  intro he
  apply hpre
  have hd := congrArg String.data he
  rw [data_append, data_append, data_append] at hd
  have h1 : pre.data ++ p.data ++ mid.data = [] := (List.append_eq_nil.mp hd).1
  have h2 : pre.data ++ p.data = [] := (List.append_eq_nil.mp h1).1
  exact (List.append_eq_nil.mp h2).1

/-- A list whose filtered part has a positive length contains a member
satisfying the filter. -/
theorem exists_mem_of_filter_length_pos {α : Type} (l : List α) (p : α → Bool)
    (h : 0 < (l.filter p).length) : ∃ a ∈ l, p a = true := by
  cases hf : l.filter p with
  | nil => rw [hf] at h; simp at h
  | cons a t =>
    have ha : a ∈ l.filter p := by rw [hf]; exact List.mem_cons_self a t
    exact ⟨a, (List.mem_filter.mp ha).1, (List.mem_filter.mp ha).2⟩

/-- C8: disconnect deletes the current user's unique token record for the
provider and reports success; with zero or several records it fails without
mutation; every outcome is a returned tuple (failures carry a message and a
null redirect), never an escaping exception. -/
theorem c8_disconnect_behaviour (cfg : Config) (provider : String) (tr : Trans)
    (db : DB) (redirect : Option String) (out : DisconnectOut)
    (hout : out = disconnect cfg provider tr db redirect) :
    (out.success = false → out.db = db ∧ out.redirect = none ∧ out.message ≠ "") ∧
    (∀ uid, tr.user = some uid →
      (db.tokens.filter
        (fun t => t.user_id == uid && t.provider == cfg.provider)).length = 1 →
      out.success = true ∧ out.message = "" ∧ out.redirect = redirect ∧
      out.db.users = db.users ∧
      out.db.tokens = db.tokens.eraseP
        (fun t => t.user_id == uid && t.provider == cfg.provider) ∧
      out.db.tokens.length + 1 = db.tokens.length) ∧
    (∀ uid, tr.user = some uid →
      (db.tokens.filter
        (fun t => t.user_id == uid && t.provider == cfg.provider)).length ≠ 1 →
      out.success = false ∧ out.db = db) := by
  subst hout
  cases htr : tr.user with
  | none =>
    have hd : disconnect cfg provider tr db redirect =
        { success := false
          message := "Failed to disconnect provider " ++ provider ++
            ": NoneType object has no attribute custos_auth"
          redirect := none
          db := db } := by
      rw [disconnect.eq_def, htr]
    rw [hd]
    refine ⟨fun _ => ⟨rfl, rfl, msg3_ne_empty _ _ _ (by decide)⟩, ?_, ?_⟩
    · intro uid huid
      cases huid
    · intro uid huid
      cases huid
  | some uid0 =>
    by_cases h0 : (db.tokens.filter
        (fun t => t.user_id == uid0 && t.provider == cfg.provider)).length = 0
    · have hd : disconnect cfg provider tr db redirect =
          { success := false
            message := "Failed to disconnect provider " ++ provider ++
              ": User is not associated with provider " ++ cfg.provider
            redirect := none
            db := db } := by
        rw [disconnect.eq_def, htr]
        simp [h0]
      rw [hd]
      refine ⟨fun _ => ⟨rfl, rfl, msg4_ne_empty _ _ _ _ (by decide)⟩, ?_, ?_⟩
      · intro uid huid hlen
        injection huid with h2
        subst h2
        omega
      · intro uid huid _
        injection huid with h2
        subst h2
        exact ⟨rfl, rfl⟩
    · by_cases h1 : (db.tokens.filter
          (fun t => t.user_id == uid0 && t.provider == cfg.provider)).length > 1
      · have hd : disconnect cfg provider tr db redirect =
            { success := false
              message := "Failed to disconnect provider " ++ provider ++
                ": User is associated more than once with provider " ++ cfg.provider
              redirect := none
              db := db } := by
          rw [disconnect.eq_def, htr]
          simp [h0, h1]
        rw [hd]
        refine ⟨fun _ => ⟨rfl, rfl, msg4_ne_empty _ _ _ _ (by decide)⟩, ?_, ?_⟩
        · intro uid huid hlen
          injection huid with h2
          subst h2
          omega
        · intro uid huid _
          injection huid with h2
          subst h2
          exact ⟨rfl, rfl⟩
      · have hone : (db.tokens.filter
            (fun t => t.user_id == uid0 && t.provider == cfg.provider)).length = 1 := by
          omega
        have hd : disconnect cfg provider tr db redirect =
            { success := true
              message := ""
              redirect := redirect
              db := { db with tokens := (db.tokens.eraseP
                (fun t => t.user_id == uid0 && t.provider == cfg.provider)) } } := by
          rw [disconnect.eq_def, htr]
          simp [h0, h1]
        rw [hd]
        obtain ⟨a, ha, hpa⟩ := exists_mem_of_filter_length_pos db.tokens
          (fun t => t.user_id == uid0 && t.provider == cfg.provider)
          (by omega)
        refine ⟨fun hs => Bool.noConfusion hs, ?_, ?_⟩
        · intro uid huid _
          injection huid with h2
          subst h2
          exact ⟨rfl, rfl, rfl, rfl, rfl, List.length_eraseP_add_one ha hpa⟩
        · intro uid huid hne
          injection huid with h2
          subst h2
          exact absurd hone hne

/-- Fixture: a user (id 7) holding exactly one token record for the custos
provider. -/
def c8tr : Trans :=
  { stateCookie := none, nonceCookie := none, user := some 7
    enable_oidc := true, oidc_count := 1, authenticators_count := 0 }

/-- Fixture database for the disconnect witness. -/
def c8db : DB :=
  { users := [⟨7, "u@x.org", "u"⟩]
    tokens := [⟨7, "ext-1", "custos", "at", "it", none, 1000, none⟩]
    nextId := 8 }

/-- Witness for C8: the single matching record is deleted and success is
returned. -/
theorem c8_disconnect_behaviour_witness :
    (disconnect verifyCfg "custos" c8tr c8db (some "b")).success = true ∧
    (disconnect verifyCfg "custos" c8tr c8db (some "b")).message = "" ∧
    (disconnect verifyCfg "custos" c8tr c8db (some "b")).db.tokens.length + 1 =
      c8db.tokens.length := by
  have h := (c8_disconnect_behaviour verifyCfg "custos" c8tr c8db (some "b")
    _ rfl).2.1 7 rfl (by decide)
  exact ⟨h.1, h.2.1, h.2.2.2.2.2⟩

/-- The config produced by a successful `__init__` carries exactly the
endpoints its resolution branch produced. -/
theorem custosAuthnzInit_endpoints (provider : String) (vs : Bool)
    (b : OidcBackendConfig) (wkf : String → WellKnownConfig)
    (dir : WellKnownConfig) (cred : Option String) (cfg : Config)
    (h : custosAuthnzInit provider vs b wkf dir cred = .ok cfg) :
    ∃ eps, resolve_endpoints provider b wkf dir = .ok eps ∧
      cfg.authorization_endpoint = some eps.authorization_endpoint ∧
      cfg.token_endpoint = some eps.token_endpoint ∧
      cfg.userinfo_endpoint = some eps.userinfo_endpoint ∧
      cfg.end_session_endpoint = eps.end_session_endpoint := by
  rw [custosAuthnzInit.eq_def] at h
  cases hcu : b.credential_url with
  | none =>
    rw [hcu] at h
    cases hres : resolve_endpoints provider b wkf dir with
    | error e =>
      rw [hres] at h
      simp [Bind.bind, Except.bind, Pure.pure, Except.pure] at h
    | ok eps =>
      rw [hres] at h
      simp only [Bind.bind, Except.bind, Pure.pure, Except.pure] at h
      cases h
      exact ⟨eps, rfl, rfl, rfl, rfl, rfl⟩
  | some cu =>
    rw [hcu] at h
    dsimp only at h
    by_cases hcu0 : cu = ""
    · rw [if_pos hcu0] at h
      cases hres : resolve_endpoints provider b wkf dir with
      | error e =>
        rw [hres] at h
        simp [Bind.bind, Except.bind, Pure.pure, Except.pure] at h
      | ok eps =>
        rw [hres] at h
        simp only [Bind.bind, Except.bind, Pure.pure, Except.pure] at h
        cases h
        exact ⟨eps, rfl, rfl, rfl, rfl, rfl⟩
    · rw [if_neg hcu0] at h
      cases hcr : cred with
      | none =>
        rw [hcr] at h
        simp [Bind.bind, Except.bind] at h
      | some s =>
        rw [hcr] at h
        cases hres : resolve_endpoints provider b wkf dir with
        | error e =>
          rw [hres] at h
          simp [Bind.bind, Except.bind, Pure.pure, Except.pure] at h
        | ok eps =>
          rw [hres] at h
          simp only [Bind.bind, Except.bind, Pure.pure, Except.pure] at h
          cases h
          exact ⟨eps, rfl, rfl, rfl, rfl, rfl⟩

/-- The endpoint-resolution branches and the `end_session_endpoint`: every
branch but the cilogon defaults produces one. -/
theorem resolve_endpoints_end_session (provider : String)
    (b : OidcBackendConfig) (wkf : String → WellKnownConfig)
    (dir : WellKnownConfig) (eps : ResolvedEndpoints)
    (h : resolve_endpoints provider b wkf dir = .ok eps) :
    ((b.well_known_oidc_config_uri = none ∧ provider = "cilogon") →
      eps.end_session_endpoint = none) ∧
    ((b.well_known_oidc_config_uri ≠ none ∨ provider ≠ "cilogon") →
      eps.end_session_endpoint.isSome) := by
  cases hwk : b.well_known_oidc_config_uri with
  | some uri =>
    rw [resolve_endpoints.eq_def, hwk] at h
    dsimp only at h
    cases hdoc : endpoints_from_doc (wkf uri) with
    | error e => rw [hdoc] at h; cases h
    | ok q =>
      obtain ⟨a, t, u, e⟩ := q
      rw [hdoc] at h
      simp only [Bind.bind, Except.bind, Pure.pure, Except.pure] at h
      cases h
      exact ⟨fun hc => Option.noConfusion hc.1, fun _ => rfl⟩
  | none =>
    rw [resolve_endpoints.eq_def, hwk] at h
    dsimp only at h
    by_cases hcil : provider = "cilogon"
    · rw [if_pos hcil] at h
      simp only [pure, Except.pure] at h
      cases h
      refine ⟨fun _ => rfl, fun hor => ?_⟩
      cases hor with
      | inl h1 => exact absurd rfl h1
      | inr h2 => exact absurd hcil h2
    · rw [if_neg hcil] at h
      by_cases hcus : provider = "custos"
      · rw [if_pos hcus] at h
        cases hdoc : endpoints_from_doc dir with
        | error e => rw [hdoc] at h; cases h
        | ok q =>
          obtain ⟨a, t, u, e⟩ := q
          rw [hdoc] at h
          simp only [Bind.bind, Except.bind, Pure.pure, Except.pure] at h
          cases h
          exact ⟨fun hc => absurd hc.2 hcil, fun _ => rfl⟩
      · rw [if_neg hcus] at h
        cases hrealm : b.realm with
        | none => rw [hrealm] at h; cases h
        | some realm =>
          rw [hrealm] at h
          dsimp only at h
          cases huri : well_known_uri_for_provider_and_realm
              (strLower provider) b.url realm with
          | error e => rw [huri] at h; simp [Bind.bind, Except.bind] at h
          | ok uri2 =>
            rw [huri] at h
            simp [Bind.bind, Except.bind] at h
            cases hdoc : endpoints_from_doc (wkf uri2) with
            | error e => rw [hdoc] at h; cases h
            | ok q =>
              obtain ⟨a, t, u, e⟩ := q
              rw [hdoc] at h
              simp only [Bind.bind, Except.bind, Pure.pure, Except.pure] at h
              cases h
              exact ⟨fun hc => absurd hc.2 hcil, fun _ => rfl⟩

/-- C4 (amended): a successful adapter construction always populates the
authorization, token and userinfo endpoints; `end_session_endpoint` is also
populated by the explicit-discovery, custos-directory and provider+realm
strategies, but the cilogon-defaults strategy leaves it unset. -/
theorem c4_endpoints_after_init (provider : String) (vs : Bool)
    (b : OidcBackendConfig) (wkf : String → WellKnownConfig)
    (dir : WellKnownConfig) (cred : Option String) (cfg : Config)
    (h : custosAuthnzInit provider vs b wkf dir cred = .ok cfg) :
    cfg.authorization_endpoint.isSome ∧ cfg.token_endpoint.isSome ∧
    cfg.userinfo_endpoint.isSome ∧
    ((b.well_known_oidc_config_uri = none ∧ provider = "cilogon") →
      cfg.end_session_endpoint = none) ∧
    ((b.well_known_oidc_config_uri ≠ none ∨ provider ≠ "cilogon") →
      cfg.end_session_endpoint.isSome) := by
  obtain ⟨eps, hres, ha, ht, hu, he⟩ :=
    custosAuthnzInit_endpoints provider vs b wkf dir cred cfg h
  have hshape := resolve_endpoints_end_session provider b wkf dir eps hres
  rw [ha, ht, hu, he]
  exact ⟨rfl, rfl, rfl, hshape.1, hshape.2⟩

/-- Fixture: a plain cilogon backend configuration (no discovery URI, no
credential endpoint). -/
def cilogonBackend : OidcBackendConfig :=
  { url := "https://keycloak.example.org"
    client_id := "cid"
    client_secret := "sec"
    credential_url := none
    redirect_uri := "https://galaxy.example.org/callback"
    ca_bundle := none
    idphint := none
    well_known_oidc_config_uri := none
    realm := none }

/-- Fixture: a discovery document carrying no endpoint at all (never fetched
on the cilogon path). -/
def emptyWellKnown : WellKnownConfig := ⟨none, none, none, none⟩

/-- Counterexample for C4 as stated: constructing the adapter for provider
`cilogon` succeeds, populates the authorization, token and userinfo
endpoints, yet leaves `end_session_endpoint` unset. -/
theorem c4_counterexample :
    (custosAuthnzInit "cilogon" true cilogonBackend (fun _ => emptyWellKnown)
        emptyWellKnown none).toOption.map
      (fun cfg => (cfg.authorization_endpoint.isSome, cfg.token_endpoint.isSome,
        cfg.userinfo_endpoint.isSome, cfg.end_session_endpoint)) =
      some (true, true, true, none) := by decide

/-- Fixture: a custos backend configuration. -/
def custosBackend : OidcBackendConfig :=
  { cilogonBackend with url := "https://directory.example.org" }

/-- Fixture: a complete discovery/directory document. -/
def fullWellKnown : WellKnownConfig :=
  ⟨some "https://a.example.org", some "https://t.example.org",
   some "https://u.example.org", some "https://e.example.org"⟩

/-- Fixture: a throwaway config value used only as a `getD` default. -/
def blankConfig : Config :=
  { provider := "", verify_ssl := false, url := "", client_id := ""
    client_secret := "", credential_url := none, iam_client_secret := none
    redirect_uri := "", ca_bundle := none, kc_idp_hint := ""
    well_known_oidc_config_uri := none, authorization_endpoint := none
    token_endpoint := none, userinfo_endpoint := none
    end_session_endpoint := none }

/-- The config built by a concrete successful custos-path construction. -/
def c4cfg : Config :=
  (custosAuthnzInit "custos" true custosBackend (fun _ => fullWellKnown)
    fullWellKnown none).toOption.getD blankConfig

/-- Witness for C4 (amended): the custos path populates all four endpoints. -/
theorem c4_endpoints_after_init_witness :
    c4cfg.authorization_endpoint.isSome ∧ c4cfg.token_endpoint.isSome ∧
    c4cfg.userinfo_endpoint.isSome ∧ c4cfg.end_session_endpoint.isSome := by
  have h := c4_endpoints_after_init "custos" true custosBackend
    (fun _ => fullWellKnown) fullWellKnown none c4cfg rfl
  exact ⟨h.1, h.2.1, h.2.2.1, h.2.2.2.2 (Or.inr (by decide))⟩

/-- Fixture: a resolved cilogon-flavoured configuration for the
authorization-request theorems. -/
def c3cfg : Config :=
  { provider := "cilogon", verify_ssl := true, url := "https://u"
    client_id := "cid", client_secret := "sec", credential_url := none
    iam_client_secret := none, redirect_uri := "https://cb", ca_bundle := none
    kc_idp_hint := "cilogon", well_known_oidc_config_uri := none
    authorization_endpoint := some "https://auth"
    token_endpoint := some "https://tok"
    userinfo_endpoint := some "https://ui"
    end_session_endpoint := none }

/-- Fixture: a fresh transaction with no cookies and no session user. -/
def c3tr : Trans :=
  { stateCookie := none, nonceCookie := none, user := none
    enable_oidc := true, oidc_count := 1, authenticators_count := 0 }

/-- Counterexample for C3 as stated: the caller-visible return value of
`authenticate` is one string (the authorization URL).  Two login attempts
differing only in the raw nonce token return the *same* value (the URL embeds
only the nonce hash), so the returned value cannot contain the raw
`nonce_token`, and no `(redirect_url, state_token, nonce_token)` triple is
returned — the raw tokens end up in the cookies instead. -/
theorem c3_counterexample :
    (authenticate (fun _ => "h") modelAuthUrl c3cfg c3tr none "S" "N1").result =
      (authenticate (fun _ => "h") modelAuthUrl c3cfg c3tr none "S" "N2").result ∧
    ("N1" : String) ≠ "N2" ∧
    (authenticate (fun _ => "h") modelAuthUrl c3cfg c3tr none "S" "N1").result =
      .ok "https://auth/?kc_idp_hint=oidc&response_type=code&client_id=cid&redirect_uri=https://cb&nonce=h&kc_idp_hint=cilogon&state=S" :=
  ⟨rfl, by decide, rfl⟩

/-- C3 (amended): `authenticate` returns only the built authorization URL
(which carries the hashed nonce, not the raw one) and itself persists the two
raw anti-forgery tokens into the state and nonce cookies. -/
theorem c3_authenticate_result (H : String → String)
    (authUrlFn : String → List (String × String) → String → String)
    (cfg : Config) (tr : Trans) (idphint : Option String)
    (state nonce ep : String) (h : cfg.authorization_endpoint = some ep) :
    (authenticate H authUrlFn cfg tr idphint state nonce).tr.stateCookie =
      some state ∧
    (authenticate H authUrlFn cfg tr idphint state nonce).tr.nonceCookie =
      some nonce ∧
    (authenticate H authUrlFn cfg tr idphint state nonce).result =
      .ok (authUrlFn
        (ep ++ "/?kc_idp_hint=oidc&response_type=code&client_id=" ++
          cfg.client_id ++ "&redirect_uri=" ++ cfg.redirect_uri)
        ([("nonce", H nonce)] ++
          (match idphint with | some hint => [("idphint", hint)] | none => []) ++
          [("kc_idp_hint", cfg.kc_idp_hint)])
        state) := by
  rw [authenticate.eq_def, h]
  exact ⟨rfl, rfl, rfl⟩

/-- Witness for C3 (amended): concrete login attempt, cookies receive the raw
tokens. -/
theorem c3_authenticate_result_witness :
    (authenticate (fun _ => "h") modelAuthUrl c3cfg c3tr none "S" "N").tr.stateCookie =
      some "S" ∧
    (authenticate (fun _ => "h") modelAuthUrl c3cfg c3tr none "S" "N").tr.nonceCookie =
      some "N" :=
  ⟨(c3_authenticate_result (fun _ => "h") modelAuthUrl c3cfg c3tr none "S" "N"
      "https://auth" rfl).1,
   (c3_authenticate_result (fun _ => "h") modelAuthUrl c3cfg c3tr none "S" "N"
      "https://auth" rfl).2.1⟩

/-- Updating exactly the matching elements of a list preserves the matching
set when the update preserves the match. -/
theorem filter_map_update {α : Type} (l : List α) (Q : α → Bool) (f : α → α)
    (hf : ∀ t, Q t = true → Q (f t) = true) :
    (l.map (fun t => if Q t then f t else t)).filter Q = (l.filter Q).map f := by
  induction l with
  | nil => rfl
  | cons hd tl ih =>
    by_cases hq : Q hd = true
    · simp [hq, hf hd hq, ih]
    · simp [hq, ih]

/-- C1: success past nonce validation requires that the hash of the persisted
nonce cookie equal the `nonce` claim of the decoded identity token; the nonce
cookie is deleted whether or not the hashes match; and on mismatch the
callback fails with the nonce error before any user lookup or any
user/token-record mutation (the session state is returned untouched and the
userinfo endpoint was not contacted). -/
theorem c1_nonce_validation (H : String → String) (cfg : Config) (tr : Trans)
    (db : DB) (now : Nat) (token : TokenResponse) (decode : String → Claims)
    (uiResp : Claims) (url : String) (nh : String)
    (hnonce : (decode token.id_token).nonce = some nh)
    (out : CallbackOut)
    (hout : out = callback H cfg tr db now token decode uiResp url) :
    out.tr.nonceCookie = none ∧
    (nh ≠ H (smart_str tr.nonceCookie) →
      out.result = .error "Nonce mismatch!" ∧ out.db = db ∧
        out.userinfoFetched = false) ∧
    (∀ x, out.result = .ok x → nh = H (smart_str tr.nonceCookie)) := by
  subst hout
  rw [callback.eq_def]
  dsimp only
  rw [hnonce]
  dsimp only [validate_nonce]
  by_cases hm : nh = H (smart_str tr.nonceCookie)
  · rw [if_neg (not_not_intro hm)]
    dsimp only
    refine ⟨?_, fun hne => absurd hm hne, fun x _ => hm⟩
    repeat' split
    all_goals rfl
  · rw [if_pos hm]
    dsimp only
    exact ⟨rfl, fun _ => ⟨rfl, rfl, rfl⟩, fun x hx => Except.noConfusion hx⟩

/-- Fixture: a transaction carrying the persisted nonce cookie `N`. -/
def c1tr : Trans :=
  { stateCookie := some "S", nonceCookie := some "N", user := none
    enable_oidc := true, oidc_count := 1, authenticators_count := 0 }

/-- Fixture: an empty persistent store. -/
def c1db : DB := { users := [], tokens := [], nextId := 1 }

/-- Fixture: a minimal token-endpoint response. -/
def c1token : TokenResponse :=
  { access_token := "AT", id_token := "IDT", refresh_token := none
    expires_in := none, refresh_expires_in := none }

/-- Fixture: decoded claims whose nonce claim does not match the cookie
hash. -/
def c1claims : Claims :=
  { nonce := some "X", email := some "a@b.org", preferred_username := none
    sub := some "ext-1" }

/-- Witness for C1: a mismatching nonce claim deletes the cookie, fails with
the nonce error and leaves the store untouched. -/
theorem c1_nonce_validation_witness :
    (callback (fun s => s ++ "#") c3cfg c1tr c1db 0 c1token
      (fun _ => c1claims) c1claims "u").tr.nonceCookie = none ∧
    (callback (fun s => s ++ "#") c3cfg c1tr c1db 0 c1token
      (fun _ => c1claims) c1claims "u").result = .error "Nonce mismatch!" ∧
    (callback (fun s => s ++ "#") c3cfg c1tr c1db 0 c1token
      (fun _ => c1claims) c1claims "u").db = c1db := by
  have h := c1_nonce_validation (fun s => s ++ "#") c3cfg c1tr c1db 0 c1token
    (fun _ => c1claims) c1claims "u" "X" rfl _ rfl
  have h2 := h.2.1 (by decide)
  exact ⟨h.1, h2.1, h2.2.1⟩

/-- C2: in a callback with no token record for the external subject and no
session user, a local user with the callback's email is auto-bound if and
only if OIDC is enabled, exactly one external provider is configured and
zero local authenticators are configured; in every other configuration the
callback fails with the explicit conflict error and neither users nor token
records change. -/
theorem c2_autobind_policy (H : String → String) (cfg : Config) (tr : Trans)
    (db : DB) (now : Nat) (token : TokenResponse) (decode : String → Claims)
    (uiResp : Claims) (url : String) (ui : Claims) (fetched : Bool)
    (nh em sid : String) (existing : UserRec)
    (hnonce : (decode token.id_token).nonce = some nh)
    (hm : nh = H (smart_str tr.nonceCookie))
    (hui : get_userinfo_step (decode token.id_token) uiResp = .ok (ui, fetched))
    (hemail : ui.email = some em)
    (hsub : ui.sub = some sid)
    (hnorec : db.tokens.filter
      (fun t => t.external_user_id == sid && t.provider == cfg.provider) = [])
    (huser : tr.user = none)
    (hexist : db.users.find? (fun u => u.email == em) = some existing)
    (out : CallbackOut)
    (hout : out = callback H cfg tr db now token decode uiResp url) :
    (tr.enable_oidc = true ∧ tr.oidc_count = 1 ∧ tr.authenticators_count = 0 →
      out.result = .ok (url, existing.id) ∧
      out.db.users = db.users ∧
      out.db.tokens = db.tokens ++ [new_token_record cfg existing.id sid token now]) ∧
    (¬(tr.enable_oidc = true ∧ tr.oidc_count = 1 ∧ tr.authenticators_count = 0) →
      out.result = .error "There already exists a user this email.  To associate this external login, you must first be logged in as that existing account." ∧
      out.db = db) := by
  subst hout
  rw [callback.eq_def]
  dsimp only
  rw [hnonce]
  dsimp only [validate_nonce]
  rw [if_neg (not_not_intro hm)]
  dsimp only
  rw [hui]
  dsimp only
  rw [hemail]
  dsimp only
  rw [hsub]
  dsimp only [get_custos_authnz_token]
  rw [hnorec]
  dsimp only [one_or_none]
  rw [huser]
  dsimp only
  rw [hexist]
  dsimp only
  by_cases hc : tr.enable_oidc = true ∧ tr.oidc_count = 1 ∧
      tr.authenticators_count = 0
  · have hb : (tr.enable_oidc && tr.oidc_count == 1 &&
        tr.authenticators_count == 0) = true := by
      simp [hc.1, hc.2.1, hc.2.2]
    rw [if_pos hb]
    exact ⟨fun _ => ⟨rfl, rfl, rfl⟩, fun hcon => absurd hc hcon⟩
  · have hb : (tr.enable_oidc && tr.oidc_count == 1 &&
        tr.authenticators_count == 0) = false := by
      cases hx : (tr.enable_oidc && tr.oidc_count == 1 &&
          tr.authenticators_count == 0) with
      | false => rfl
      | true =>
        simp only [Bool.and_eq_true, beq_iff_eq] at hx
        exact absurd ⟨hx.1.1, hx.1.2, hx.2⟩ hc
    rw [if_neg (by simp [hb])]
    exact ⟨fun hcon => absurd hcon hc, fun _ => ⟨rfl, rfl⟩⟩

/-- Fixture: claims matching the hashed cookie `N`, with a non-empty email
and subject `ext-9`. -/
def c2claims : Claims :=
  { nonce := some "N#", email := some "a@b.org"
    preferred_username := some "pu", sub := some "ext-9" }

/-- Fixture: a store holding one local user with the callback's email and no
token record. -/
def c2dbExisting : DB :=
  { users := [⟨5, "a@b.org", "alice"⟩], tokens := [], nextId := 6 }

/-- Fixture: an anonymous transaction under the sole-provider policy
(OIDC on, one provider, no local authenticators). -/
def c2trOk : Trans :=
  { stateCookie := some "S", nonceCookie := some "N", user := none
    enable_oidc := true, oidc_count := 1, authenticators_count := 0 }

/-- Witness for C2: under the sole-provider policy the callback auto-binds
the existing user and appends exactly one token record for them. -/
theorem c2_autobind_policy_witness :
    (callback (fun s => s ++ "#") c3cfg c2trOk c2dbExisting 0 c1token
      (fun _ => c2claims) c2claims "u").result = .ok ("u", 5) ∧
    (callback (fun s => s ++ "#") c3cfg c2trOk c2dbExisting 0 c1token
      (fun _ => c2claims) c2claims "u").db.users = c2dbExisting.users ∧
    (callback (fun s => s ++ "#") c3cfg c2trOk c2dbExisting 0 c1token
      (fun _ => c2claims) c2claims "u").db.tokens =
      c2dbExisting.tokens ++ [new_token_record c3cfg 5 "ext-9" c1token 0] := by
  have h := (c2_autobind_policy (fun s => s ++ "#") c3cfg c2trOk c2dbExisting 0
    c1token (fun _ => c2claims) c2claims "u" c2claims false "N#" "a@b.org"
    "ext-9" ⟨5, "a@b.org", "alice"⟩ rfl (by decide) rfl rfl rfl (by decide)
    rfl rfl _ rfl).1 (by decide)
  exact ⟨h.1, h.2.1, h.2.2⟩

/-- C9: a successful callback for a subject that already has exactly one
persisted token record for the provider updates that record in place (its
five token fields), creates no user and no token record, and leaves exactly
one record for the pair. -/
theorem c9_update_path (H : String → String) (cfg : Config) (tr : Trans)
    (db : DB) (now : Nat) (token : TokenResponse) (decode : String → Claims)
    (uiResp : Claims) (url : String) (ui : Claims) (fetched : Bool)
    (nh em sid : String) (rec0 : TokenRecord)
    (hnonce : (decode token.id_token).nonce = some nh)
    (hm : nh = H (smart_str tr.nonceCookie))
    (hui : get_userinfo_step (decode token.id_token) uiResp = .ok (ui, fetched))
    (hemail : ui.email = some em)
    (hsub : ui.sub = some sid)
    (hone : db.tokens.filter
      (fun t => t.external_user_id == sid && t.provider == cfg.provider) = [rec0])
    (out : CallbackOut)
    (hout : out = callback H cfg tr db now token decode uiResp url) :
    out.result = .ok (url, rec0.user_id) ∧
    out.db.users = db.users ∧
    out.db.nextId = db.nextId ∧
    out.db.tokens = db.tokens.map (fun t =>
      if t.external_user_id == sid && t.provider == cfg.provider then
        update_token_record t token now
      else t) ∧
    out.db.tokens.length = db.tokens.length ∧
    out.db.tokens.filter
        (fun t => t.external_user_id == sid && t.provider == cfg.provider) =
      [update_token_record rec0 token now] := by
  subst hout
  rw [callback.eq_def]
  dsimp only
  rw [hnonce]
  dsimp only [validate_nonce]
  rw [if_neg (not_not_intro hm)]
  dsimp only
  rw [hui]
  dsimp only
  rw [hemail]
  dsimp only
  rw [hsub]
  dsimp only [get_custos_authnz_token]
  rw [hone]
  dsimp only [one_or_none]
  refine ⟨rfl, rfl, rfl, rfl, by simp, ?_⟩
  have hpres : ∀ t : TokenRecord,
      (t.external_user_id == sid && t.provider == cfg.provider) = true →
      ((update_token_record t token now).external_user_id == sid &&
        (update_token_record t token now).provider == cfg.provider) = true := by
    intro t ht
    simpa [update_token_record] using ht
  calc (db.tokens.map (fun t =>
          if t.external_user_id == sid && t.provider == cfg.provider then
            update_token_record t token now
          else t)).filter
        (fun t => t.external_user_id == sid && t.provider == cfg.provider)
      = (db.tokens.filter
          (fun t => t.external_user_id == sid && t.provider == cfg.provider)).map
          (fun t => update_token_record t token now) :=
        filter_map_update db.tokens _ _ hpres
    _ = [update_token_record rec0 token now] := by rw [hone]; rfl

/-- Fixture: the pre-existing token record for subject `ext-9` owned by user
5. -/
def c9rec : TokenRecord :=
  { user_id := 5, external_user_id := "ext-9", provider := "cilogon"
    access_token := "old", id_token := "oldid", refresh_token := none
    expiration_time := 50, refresh_expiration_time := none }

/-- Fixture: a store holding user 5 and exactly their one token record. -/
def c9db : DB :=
  { users := [⟨5, "a@b.org", "alice"⟩], tokens := [c9rec], nextId := 6 }

/-- Fixture: a fresh token response carrying all five updated values. -/
def c9token : TokenResponse :=
  { access_token := "newAT", id_token := "newID", refresh_token := some "RT"
    expires_in := some 100, refresh_expires_in := some 200 }

/-- Witness for C9: the update-path callback rewrites the single record in
place and the pair still has exactly one record. -/
theorem c9_update_path_witness :
    (callback (fun s => s ++ "#") c3cfg c2trOk c9db 1000 c9token
      (fun _ => c2claims) c2claims "u").result = .ok ("u", 5) ∧
    (callback (fun s => s ++ "#") c3cfg c2trOk c9db 1000 c9token
      (fun _ => c2claims) c2claims "u").db.users = c9db.users ∧
    (callback (fun s => s ++ "#") c3cfg c2trOk c9db 1000 c9token
      (fun _ => c2claims) c2claims "u").db.tokens.filter
        (fun t => t.external_user_id == "ext-9" && t.provider == c3cfg.provider) =
      [update_token_record c9rec c9token 1000] ∧
    (callback (fun s => s ++ "#") c3cfg c2trOk c9db 1000 c9token
      (fun _ => c2claims) c2claims "u").db.tokens.length = c9db.tokens.length := by
  have h := c9_update_path (fun s => s ++ "#") c3cfg c2trOk c9db 1000 c9token
    (fun _ => c2claims) c2claims "u" c2claims false "N#" "a@b.org" "ext-9"
    c9rec rfl (by decide) rfl rfl rfl (by decide) _ rfl
  exact ⟨h.1, h.2.1, h.2.2.2.2.2, h.2.2.2.2.1⟩

/-- Fixture: decoded claims with a matching nonce but *no* email key. -/
def c6claims : Claims :=
  { nonce := some "N#", email := none, preferred_username := none
    sub := some "ext-9" }

/-- Counterexample for C6 as stated: when no email claim is present the
callback does not call the userinfo endpoint — it fails with a key-lookup
error (Python `KeyError`) straight from `id_token_decoded['email']`. -/
theorem c6_counterexample :
    (callback (fun s => s ++ "#") c3cfg c2trOk c1db 0 c1token
      (fun _ => c6claims) c6claims "u").result = .error "KeyError: email" ∧
    (callback (fun s => s ++ "#") c3cfg c2trOk c1db 0 c1token
      (fun _ => c6claims) c6claims "u").userinfoFetched = false :=
  ⟨rfl, rfl⟩

end CustosAuthnz
